import Mathlib

/-!
Formal model of the coolerpp fuzzy differential-testing harness
(`test/scripts/fuzzy_test.py`).

The harness generates randomized 1D/2D genomic range queries, executes each
against a trusted reference (the `cooler` library) and a candidate binary
(`coolerpp_dump`), compares the tabular results, and reports a pass/fail
score.  This file gives a shallow embedding of the pure core of that script:
query generation and canonicalization, the result comparator, the candidate
executor's process protocol, the worker loop's error propagation, the final
aggregation, and the per-worker seed derivation.  External randomness (the
values returned by `random.random`, `random.gauss`, `random.randint`, the
index chosen by `random.choices`) and external process behaviour (exit code,
captured output of the candidate binary) are passed in as explicit arguments.
-/

/-- A parsed output row.  Mirrors the column layout used by
`pd.read_table(..., names=["chrom1", "start1", "end1", "chrom2", "start2",
"end2", "count"])` and by the reference selector with `join=True`. -/
structure PixelRow where
  chrom1 : String
  start1 : ℤ
  end1 : ℤ
  chrom2 : String
  start2 : ℤ
  end2 : ℤ
  count : ℤ
deriving DecidableEq, Repr

/-- Number of positions at which two equal-length row sequences differ.
Models `len(expected.compare(found))`: `pandas.DataFrame.compare` aligns
rows positionally (by label on the shared index) and collects element-wise
differences, so the count is zero exactly when every row matches its
positional counterpart. -/
def countDiffs : List PixelRow → List PixelRow → ℕ
  | [], _ => 0
  | _ :: _, [] => 0
  | a :: as, b :: bs => (if a = b then 0 else 1) + countDiffs as bs

/-- Model of `results_are_identical` (fuzzy_test.py, lines 138-164):
first `len(expected) != len(found)` returns `False`; then
`diff = expected.compare(found)` and `len(diff) != 0` returns `False`;
otherwise `True`.  Logging calls are side effects with no bearing on the
returned value and are omitted. -/
def results_are_identical (expected found : List PixelRow) : Bool :=
  if expected.length ≠ found.length then false
  else if countDiffs expected found ≠ 0 then false
  else true

theorem countDiffs_eq_zero_iff :
    ∀ (as bs : List PixelRow), as.length = bs.length →
      (countDiffs as bs = 0 ↔ as = bs) := by
  intro as
  induction as with
  | nil =>
    intro bs hlen
    cases bs with
    | nil => simp [countDiffs]
    | cons b bs => simp at hlen
  | cons a as ih =>
    intro bs hlen
    cases bs with
    | nil => simp at hlen
    | cons b bs =>
      simp only [List.length_cons, Nat.succ.injEq] at hlen
      by_cases hab : a = b
      · simp [countDiffs, hab, ih bs hlen]
      · simp [countDiffs, hab]

/-- C6: the result comparator is reflexive: for every tabular result set
`x`, including the empty one, `results_are_identical x x = true`. -/
theorem C6_comparator_reflexive (x : List PixelRow) :
    results_are_identical x x = true := by
  have hz : countDiffs x x = 0 := (countDiffs_eq_zero_iff x x rfl).mpr rfl
  simp [results_are_identical, hz]

/-- A concrete pixel row used in counterexamples. -/
def sampleRow : PixelRow :=
  { chrom1 := "chr1", start1 := 0, end1 := 10,
    chrom2 := "chr1", start2 := 0, end2 := 10, count := 7 }

/-- C5 counterexample: the claim states that for EVERY result set and EVERY
permutation of its rows the comparison of the original with the permuted
copy returns `false`.  Take the result set `[sampleRow, sampleRow]` and the
transposition of its two rows (realized by `List.reverse`): the permuted
copy is a genuine row permutation, yet the comparator returns `true`,
because the two identical rows land on each other. -/
theorem C5_counterexample :
    List.Perm ([sampleRow, sampleRow].reverse) [sampleRow, sampleRow] ∧
    [sampleRow, sampleRow].reverse = [sampleRow, sampleRow] ∧
    results_are_identical [sampleRow, sampleRow]
      ([sampleRow, sampleRow].reverse) = true := by
  refine ⟨by decide, by decide, by decide⟩

/-- C5 (amended): the comparator is row-order sensitive in the positional
sense: for every result set and every permutation of its rows whose
application actually changes the row sequence (differs from the original at
some position), the comparison returns `false`; rows are compared
positionally with no implicit re-sorting. -/
theorem C5_order_sensitive (x y : List PixelRow)
    (hperm : List.Perm x y) (hne : y ≠ x) :
    results_are_identical x y = false := by
  have hlen : x.length = y.length := hperm.length_eq
  have hdiff : countDiffs x y ≠ 0 := by
    intro hz
    exact hne (((countDiffs_eq_zero_iff x y hlen).mp hz).symm)
  simp [results_are_identical, hlen, hdiff]

/-- Witness for `C5_order_sensitive` at a concrete input: two distinct rows
swapped. -/
theorem C5_order_sensitive_witness :
    results_are_identical [sampleRow, { sampleRow with count := 8 }]
      [{ sampleRow with count := 8 }, sampleRow] = false :=
  C5_order_sensitive _ _ (by decide) (by decide)

/-- A 1D genomic range query as manipulated by `generate_query_2d`.  In the
script a query is the string `"chrom:start-end"`; `generate_query_2d`
recovers `chrom` with `partition(":")` and the integer `start` with
`partition("-")` followed by `int(...)`, so we carry the three components
directly. -/
structure GQuery where
  chrom : String
  qstart : ℤ
  qend : ℤ
deriving DecidableEq, Repr

/-- The reordering step of `generate_query_2d` (fuzzy_test.py, lines
117-135) applied to the two freshly generated queries `q1`, `q2`:

* `if ranks[chrom1] > ranks[chrom2]: q1, q2 = q2, q1`
* `if chrom1 == chrom2: if int(start1) > int(start2): q1, q2 = q2, q1`

`chrom1`, `chrom2`, `start1`, `start2` are extracted from the original
`q1`, `q2` before any swap, and the second swap acts on the current pair
(which equals the original pair whenever `chrom1 == chrom2`, since equal
chromosomes have equal ranks). -/
def canonicalize (ranks : String → ℤ) (q1 q2 : GQuery) : GQuery × GQuery :=
  let chrom1 := q1.chrom
  let chrom2 := q2.chrom
  let p := if ranks chrom2 < ranks chrom1 then (q2, q1) else (q1, q2)
  if chrom1 = chrom2 ∧ q2.qstart < q1.qstart then (p.2, p.1) else p

/-- Model of `generate_query_2d`: draw two independent 1D queries (passed
in as `q1`, `q2`, each produced by `generate_query_1d`), then order them
canonically. -/
def generate_query_2d (ranks : String → ℤ) (q1 q2 : GQuery) :
    GQuery × GQuery :=
  canonicalize ranks q1 q2

/-- Case characterization of `canonicalize`: since a shared chromosome has
equal ranks, the rank swap and the start swap never both fire, and the
result is one of the two orientations of the input pair. -/
theorem canonicalize_eq (ranks : String → ℤ) (q1 q2 : GQuery) :
    canonicalize ranks q1 q2 =
      if q1.chrom = q2.chrom ∧ q2.qstart < q1.qstart then (q2, q1)
      else if ranks q2.chrom < ranks q1.chrom then (q2, q1)
      else (q1, q2) := by
  simp only [canonicalize]
  by_cases hcs : q1.chrom = q2.chrom ∧ q2.qstart < q1.qstart
  · have hr : ¬ ranks q2.chrom < ranks q1.chrom := by
      rw [hcs.1]; exact lt_irrefl _
    rw [if_neg hr]
  · rw [if_neg hcs, if_neg hcs]

/-- C3: every pair produced by `generate_query_2d` satisfies the ordering
invariant — distinct chromosomes are listed in rank order, and on a shared
chromosome the starts are in increasing order — and canonicalization is
idempotent: re-canonicalizing an already-canonical pair leaves it
unchanged. -/
theorem C3_canonical_invariant_idempotent (ranks : String → ℤ)
    (q1 q2 : GQuery) :
    (((generate_query_2d ranks q1 q2).1.chrom ≠
        (generate_query_2d ranks q1 q2).2.chrom →
      ranks (generate_query_2d ranks q1 q2).1.chrom ≤
        ranks (generate_query_2d ranks q1 q2).2.chrom) ∧
     ((generate_query_2d ranks q1 q2).1.chrom =
        (generate_query_2d ranks q1 q2).2.chrom →
      (generate_query_2d ranks q1 q2).1.qstart ≤
        (generate_query_2d ranks q1 q2).2.qstart)) ∧
    canonicalize ranks (generate_query_2d ranks q1 q2).1
      (generate_query_2d ranks q1 q2).2 = generate_query_2d ranks q1 q2 := by
  unfold generate_query_2d
  rw [canonicalize_eq]
  by_cases hcs : q1.chrom = q2.chrom ∧ q2.qstart < q1.qstart
  · rw [if_pos hcs]
    obtain ⟨hc, hs⟩ := hcs
    refine ⟨⟨fun h => absurd hc.symm h, fun _ => le_of_lt hs⟩, ?_⟩
    rw [canonicalize_eq]
    have h1 : ¬ (q2.chrom = q1.chrom ∧ q1.qstart < q2.qstart) := by
      rintro ⟨-, h⟩; omega
    have h2 : ¬ ranks q1.chrom < ranks q2.chrom := by
      rw [hc]; exact lt_irrefl _
    rw [if_neg h1, if_neg h2]
  · rw [if_neg hcs]
    by_cases hr : ranks q2.chrom < ranks q1.chrom
    · rw [if_pos hr]
      refine ⟨⟨fun _ => le_of_lt hr, fun h => ?_⟩, ?_⟩
      · -- a shared chromosome would force equal ranks, contradicting hr
        rw [h] at hr
        exact absurd hr (lt_irrefl _)
      · rw [canonicalize_eq]
        have h1 : ¬ (q2.chrom = q1.chrom ∧ q1.qstart < q2.qstart) := by
          rintro ⟨h, -⟩
          have : ranks q2.chrom = ranks q1.chrom := by rw [h]
          omega
        have h2 : ¬ ranks q1.chrom < ranks q2.chrom := by omega
        rw [if_neg h1, if_neg h2]
    · rw [if_neg hr]
      dsimp only
      refine ⟨⟨fun _ => by omega, fun hcc => ?_⟩, ?_⟩
      · by_contra hlt
        exact hcs ⟨hcc, by omega⟩
      · rw [canonicalize_eq]
        have h1 : ¬ (q1.chrom = q2.chrom ∧ q2.qstart < q1.qstart) := hcs
        rw [if_neg h1, if_neg hr]

/-- The 1D-vs-2D branch condition of the worker loop (fuzzy_test.py, lines
203-211): `if _1d_to_2d_query_ratio <= random.random():` selects the 2D
branch.  `r` is the value returned by `random.random()`, a uniform draw
from `[0, 1)`. -/
def picks2d (ratio r : ℚ) : Bool := decide (ratio ≤ r)

/-- The query pair an iteration of the worker loop produces, given the
branch draw `r` and the queries the two generators would yield: on the 2D
branch the pair comes from `generate_query_2d`; otherwise a single 1D
query is duplicated (`q2 = q1`). -/
def workerQueryPair (ratio r : ℚ) (q2d : GQuery × GQuery) (q1d : GQuery) :
    GQuery × GQuery :=
  if ratio ≤ r then q2d else (q1d, q1d)

/-- A pair of distinct concrete queries, used to exhibit a 2D query pair
that is not of the duplicated 1D form. -/
def sample2dPair : GQuery × GQuery :=
  ({ chrom := "chr1", qstart := 0, qend := 10 },
   { chrom := "chr2", qstart := 5, qend := 15 })

/-- C2 counterexample: the claim asserts that with ratio = 0 every
iteration produces a 1D query (a pair with both elements equal).  But
`r = 1/2` is a valid uniform draw (`0 ≤ r < 1`), and with ratio = 0 the
branch condition `ratio <= r` holds, so the iteration takes the 2D branch
and emits the 2D pair — whose elements differ — not a duplicated 1D
query. -/
theorem C2_counterexample :
    ((0 : ℚ) ≤ 1 / 2 ∧ (1 / 2 : ℚ) < 1) ∧
    picks2d 0 (1 / 2) = true ∧
    workerQueryPair 0 (1 / 2) sample2dPair sample2dPair.1 = sample2dPair ∧
    sample2dPair.1 ≠ sample2dPair.2 := by
  refine ⟨⟨by norm_num, by norm_num⟩, ?_, ?_, by decide⟩
  · simp only [picks2d, decide_eq_true_eq]
    norm_num
  · simp only [workerQueryPair, if_pos (by norm_num : (0 : ℚ) ≤ 1 / 2)]

/-- C2 (amended): the branch draws 2D exactly when `ratio ≤ r`, so the
parameter is the probability of a 1D query, not of a 2D query: with
ratio = 0 every iteration takes the 2D branch, and with ratio = 1 every
iteration takes the 1D branch, emitting a pair with both elements equal. -/
theorem C2_ratio_semantics (ratio r : ℚ) (q2d : GQuery × GQuery)
    (q1d : GQuery) (h0 : 0 ≤ r) (h1 : r < 1) :
    (picks2d ratio r = true ↔ ratio ≤ r) ∧
    picks2d 0 r = true ∧
    picks2d 1 r = false ∧
    workerQueryPair 0 r q2d q1d = q2d ∧
    workerQueryPair 1 r q2d q1d = (q1d, q1d) := by
  have h1' : ¬ (1 : ℚ) ≤ r := not_le.mpr h1
  refine ⟨by simp [picks2d], by simp [picks2d, h0], by simp [picks2d, h1'],
    by simp [workerQueryPair, h0], by simp [workerQueryPair, h1']⟩

/-- Witness for `C2_ratio_semantics` at ratio = 0.33 (the default) and
r = 1/2. -/
theorem C2_ratio_semantics_witness :
    (picks2d (33 / 100) (1 / 2) = true ↔ (33 / 100 : ℚ) ≤ 1 / 2) ∧
    picks2d 0 (1 / 2) = true ∧
    picks2d 1 (1 / 2) = false ∧
    workerQueryPair 0 (1 / 2) sample2dPair sample2dPair.1 = sample2dPair ∧
    workerQueryPair 1 (1 / 2) sample2dPair sample2dPair.1 =
      (sample2dPair.1, sample2dPair.1) :=
  C2_ratio_semantics (33 / 100) (1 / 2) sample2dPair sample2dPair.1
    (by norm_num) (by norm_num)

/-- Rounding used when the script renders a position with the format
specifier `:.0f`: round to the nearest integer, ties to even (the rounding
mode of Python float formatting). -/
def roundHalfEven (x : ℚ) : ℤ :=
  if x - ⌊x⌋ < 1 / 2 then ⌊x⌋
  else if 1 / 2 < x - ⌊x⌋ then ⌊x⌋ + 1
  else if Even ⌊x⌋ then ⌊x⌋ else ⌊x⌋ + 1

theorem roundHalfEven_ge_floor (x : ℚ) : ⌊x⌋ ≤ roundHalfEven x := by
  unfold roundHalfEven
  split_ifs <;> omega

theorem roundHalfEven_le_floor_add_one (x : ℚ) :
    roundHalfEven x ≤ ⌊x⌋ + 1 := by
  unfold roundHalfEven
  split_ifs <;> omega

theorem roundHalfEven_le_ceil (x : ℚ) : roundHalfEven x ≤ ⌈x⌉ := by
  unfold roundHalfEven
  have hfloor : (⌊x⌋ : ℚ) ≤ x := Int.floor_le x
  split_ifs with h1 h2 h3
  · exact Int.floor_le_ceil x
  · exact Int.add_one_le_ceil_iff.mpr (by linarith)
  · exact Int.floor_le_ceil x
  · exact Int.add_one_le_ceil_iff.mpr (by
      have : 1 / 2 ≤ x - ⌊x⌋ := not_lt.mp h1
      linarith)

theorem roundHalfEven_nonneg {x : ℚ} (hx : 0 ≤ x) : 0 ≤ roundHalfEven x := by
  have h1 : 0 ≤ ⌊x⌋ := Int.floor_nonneg.mpr hx
  have h2 := roundHalfEven_ge_floor x
  omega

theorem roundHalfEven_le_int {x : ℚ} {n : ℤ} (hx : x ≤ (n : ℚ)) :
    roundHalfEven x ≤ n := by
  have h1 := roundHalfEven_le_ceil x
  have h2 : ⌈x⌉ ≤ n := Int.ceil_le.mpr hx
  omega

theorem roundHalfEven_mono {x y : ℚ} (hxy : x ≤ y) :
    roundHalfEven x ≤ roundHalfEven y := by
  rcases lt_or_eq_of_le (Int.floor_le_floor hxy) with hf | hf
  · calc roundHalfEven x ≤ ⌊x⌋ + 1 := roundHalfEven_le_floor_add_one x
      _ ≤ ⌊y⌋ := by omega
      _ ≤ roundHalfEven y := roundHalfEven_ge_floor y
  · by_cases h1 : x - ⌊x⌋ < 1 / 2
    · have hx : roundHalfEven x = ⌊x⌋ := by
        unfold roundHalfEven
        rw [if_pos h1]
      rw [hx, hf]
      exact roundHalfEven_ge_floor y
    · have h1' : 1 / 2 ≤ x - ⌊x⌋ := not_lt.mp h1
      have hcast : (⌊x⌋ : ℚ) = (⌊y⌋ : ℚ) := by rw [hf]
      by_cases h2 : 1 / 2 < y - ⌊y⌋
      · have hy : roundHalfEven y = ⌊y⌋ + 1 := by
          unfold roundHalfEven
          rw [if_neg (by linarith), if_pos h2]
        rw [hy, ← hf]
        exact roundHalfEven_le_floor_add_one x
      · have hy2 : y - ⌊y⌋ = 1 / 2 := by
          have hge : 1 / 2 ≤ y - ⌊y⌋ := by
            rw [← hcast]; linarith
          linarith [not_lt.mp h2]
      -- both fractional parts are exactly one half, so x = y
        have hx2 : x - ⌊x⌋ = 1 / 2 := by
          have : x - ⌊x⌋ ≤ y - ⌊y⌋ := by rw [← hcast]; linarith
          linarith
        have hxy2 : x = y := by
          have := hy2
          rw [← hcast] at this
          linarith
        rw [hxy2]

/-- The weight vector `weights = chrom_sizes / chrom_sizes.sum()` computed
by the worker (fuzzy_test.py, lines 193-194).  When the total size is 0 —
the empty table, or a non-empty table whose chromosome sizes are all 0 —
the numpy division is `0/0`, producing NaN entries (a warning, not an
exception, at this point); `none` marks that degenerate vector. -/
def workerWeights (chroms : List (String × ℕ)) : Option (List ℚ) :=
  let total := (chroms.map Prod.snd).sum
  if total = 0 then none
  else some (chroms.map (fun c => (c.2 : ℚ) / (total : ℚ)))

/-- Model of the chromosome selection
`random.choices(chroms, weights=weights, k=1)[0]` (fuzzy_test.py, line
106).  The categorical draw is abstracted by the chosen index `pick`
(reduced modulo the population size).  `random.choices` raises whenever it
cannot draw: on an empty population (`IndexError` computing the weight
total) and on a NaN weight total (`ValueError`, `Total of weights must be
finite`, raised since Python 3.9) — both exactly the cases where
`workerWeights` is degenerate.  With a finite positive total it returns a
member of the population; the weights then only bias which member is
likelier. -/
def choose (chroms : List (String × ℕ)) (pick : ℕ) : Option (String × ℕ) :=
  match workerWeights chroms with
  | none => none
  | some _ => chroms.get? (pick % chroms.length)

/-- The data produced by `generate_query_1d` (fuzzy_test.py, lines
105-114).  The script renders it as the string
`"{chrom_name}:{start_pos:.0f}-{end_pos:.0f}"`; the structure carries the
exact positions together with their rendered half-to-even roundings. -/
structure Gen1D where
  chrom : String
  startPos : ℚ
  endPos : ℚ
  startInt : ℤ
  endInt : ℤ
deriving DecidableEq, Repr

/-- Model of `generate_query_1d`.  PRNG draws are explicit inputs: `pick`
resolves the weighted chromosome choice, `g` is the value of
`random.gauss(mu=mean_length, sigma=stddev_length)` (an arbitrary real;
the mean and standard deviation only shape its distribution), and `center`
is the value of `random.randint(0, chrom_size)`.  Then, as in the source:
`query_length = max(2.0, g)`, `start_pos = max(0.0, center -
query_length / 2)`, `end_pos = min(chrom_size, start_pos +
query_length)`. -/
def generate_query_1d (chroms : List (String × ℕ)) (pick : ℕ) (g : ℚ)
    (center : ℤ) : Option Gen1D :=
  match choose chroms pick with
  | none => none
  | some (chrom_name, chrom_size) =>
    let query_length := max 2 g
    let start_pos := max 0 ((center : ℚ) - query_length / 2)
    let end_pos := min (chrom_size : ℚ) (start_pos + query_length)
    some { chrom := chrom_name, startPos := start_pos, endPos := end_pos,
           startInt := roundHalfEven start_pos,
           endInt := roundHalfEven end_pos }

/-- C4: whenever a chromosome of size `chrom_size` is selected and the
center draw respects the `randint(0, chrom_size)` contract, the generated
range satisfies `0 ≤ start ≤ end ≤ chrom_size`, both for the exact
positions and for the rounded integers emitted in the
`"chrom:start-end"` query string. -/
theorem C4_generate_1d_bounds (chroms : List (String × ℕ)) (pick : ℕ)
    (g : ℚ) (center : ℤ) (chrom_name : String) (chrom_size : ℕ)
    (hsel : choose chroms pick = some (chrom_name, chrom_size))
    (h0 : 0 ≤ center) (h1 : center ≤ (chrom_size : ℤ)) :
    ∃ res : Gen1D, generate_query_1d chroms pick g center = some res ∧
      res.chrom = chrom_name ∧
      0 ≤ res.startPos ∧ res.startPos ≤ res.endPos ∧
      res.endPos ≤ (chrom_size : ℚ) ∧
      0 ≤ res.startInt ∧ res.startInt ≤ res.endInt ∧
      res.endInt ≤ (chrom_size : ℤ) := by
  have h0q : (0 : ℚ) ≤ (center : ℤ) := by exact_mod_cast h0
  have h1q : ((center : ℤ) : ℚ) ≤ (chrom_size : ℕ) := by exact_mod_cast h1
  have hL : (2 : ℚ) ≤ max 2 g := le_max_left 2 g
  have hs0 : (0 : ℚ) ≤ max 0 ((center : ℚ) - max 2 g / 2) := le_max_left 0 _
  have hssize : max 0 ((center : ℚ) - max 2 g / 2) ≤ (chrom_size : ℕ) := by
    apply max_le
    · exact_mod_cast Nat.cast_nonneg chrom_size
    · linarith
  have hse : max 0 ((center : ℚ) - max 2 g / 2) ≤
      min ((chrom_size : ℕ) : ℚ)
        (max 0 ((center : ℚ) - max 2 g / 2) + max 2 g) := by
    apply le_min hssize
    linarith
  have hesize : min ((chrom_size : ℕ) : ℚ)
      (max 0 ((center : ℚ) - max 2 g / 2) + max 2 g) ≤ (chrom_size : ℕ) :=
    min_le_left _ _
  have hcastsize : ((chrom_size : ℕ) : ℚ) = (((chrom_size : ℕ) : ℤ) : ℚ) := by
    push_cast
    rfl
  have heq : generate_query_1d chroms pick g center =
      some { chrom := chrom_name,
             startPos := max 0 ((center : ℚ) - max 2 g / 2),
             endPos := min ((chrom_size : ℕ) : ℚ)
               (max 0 ((center : ℚ) - max 2 g / 2) + max 2 g),
             startInt := roundHalfEven (max 0 ((center : ℚ) - max 2 g / 2)),
             endInt := roundHalfEven (min ((chrom_size : ℕ) : ℚ)
               (max 0 ((center : ℚ) - max 2 g / 2) + max 2 g)) } := by
    unfold generate_query_1d
    rw [hsel]
  exact ⟨_, heq, rfl, hs0, hse, hesize,
    roundHalfEven_nonneg hs0, roundHalfEven_mono hse,
    roundHalfEven_le_int (by rw [← hcastsize]; exact hesize)⟩

/-- C8 counterexample: the claim asserts that `generate_query_1d` fails
ONLY on the empty table and succeeds on every non-empty table with any
chromosome sizes.  But on the non-empty table `[("chr1", 0)]` the worker's
weight vector is `0/0 = NaN`, and `random.choices` rejects the non-finite
weight total (`ValueError`), so generation fails fatally on a non-empty
table. -/
theorem C8_counterexample :
    ([("chr1", 0)] : List (String × ℕ)) ≠ [] ∧
    generate_query_1d [("chr1", 0)] 0 7 0 = none :=
  ⟨by decide, rfl⟩

/-- C8 (amended): `generate_query_1d` fails exactly when the chromosome
selection cannot draw, namely when the total chromosome size is 0: on the
empty table (`IndexError`) and on a non-empty table whose sizes are all 0
(NaN weights, `ValueError`).  For every table with positive total size —
in particular any table containing a chromosome of positive size — and all
length parameters, query generation completes without raising. -/
theorem C8_generate_1d_total_amended (chroms degenerate : List (String × ℕ))
    (pick : ℕ) (g : ℚ) (center : ℤ)
    (hpos : (chroms.map Prod.snd).sum ≠ 0)
    (hzero : (degenerate.map Prod.snd).sum = 0) :
    (generate_query_1d chroms pick g center).isSome = true ∧
    generate_query_1d degenerate pick g center = none := by
  constructor
  · have hne : chroms ≠ [] := by
      intro h
      rw [h] at hpos
      exact hpos rfl
    have hlen : 0 < chroms.length := List.length_pos.mpr hne
    have hlt : pick % chroms.length < chroms.length := Nat.mod_lt _ hlen
    rcases hget : chroms.get ⟨pick % chroms.length, hlt⟩ with ⟨name, size⟩
    have hsel : choose chroms pick = some (name, size) := by
      unfold choose workerWeights
      rw [if_neg hpos]
      show chroms.get? (pick % chroms.length) = some (name, size)
      rw [List.get?_eq_get hlt, hget]
    unfold generate_query_1d
    rw [hsel]
    rfl
  · have hsel : choose degenerate pick = none := by
      unfold choose workerWeights
      rw [if_pos hzero]
    unfold generate_query_1d
    rw [hsel]

/-- Witness for `C4_generate_1d_bounds` and `C8_generate_1d_total` at
a concrete input: the scenario-A table with two chromosomes of sizes 100
and 50, selecting the first chromosome, `g = 7`, `center = 3`. -/
theorem C4_generate_1d_bounds_witness :
    ∃ res : Gen1D,
      generate_query_1d [("chr1", 100), ("chr2", 50)] 0 7 3 = some res ∧
      res.chrom = "chr1" ∧
      0 ≤ res.startPos ∧ res.startPos ≤ res.endPos ∧
      res.endPos ≤ ((100 : ℕ) : ℚ) ∧
      0 ≤ res.startInt ∧ res.startInt ≤ res.endInt ∧
      res.endInt ≤ ((100 : ℕ) : ℤ) :=
  C4_generate_1d_bounds [("chr1", 100), ("chr2", 50)] 0 7 3 "chr1" 100
    (by rfl) (by norm_num) (by norm_num)

/-- Witness for `C8_generate_1d_total_amended`: the scenario-A table has
positive total size, while the table of two zero-size chromosomes is
non-empty yet degenerate. -/
theorem C8_generate_1d_total_amended_witness :
    (generate_query_1d [("chr1", 100), ("chr2", 50)] 0 7 3).isSome = true ∧
    generate_query_1d [("chr1", 0), ("chr2", 0)] 0 7 3 = none :=
  C8_generate_1d_total_amended [("chr1", 100), ("chr2", 50)]
    [("chr1", 0), ("chr2", 0)] 0 7 3 (by decide) (by decide)

/-- Observable behaviour of one invocation of the candidate process: its
exit code, the lines it wrote to standard output, and the text it wrote to
standard error. -/
structure ProcBehavior where
  returncode : ℤ
  outLines : List String
  errText : String
deriving DecidableEq, Repr

/-- The stream captured by `sp.check_output(cmd, stderr=sp.STDOUT)`:
standard output and standard error merged into one captured stream
(serialized here as the output lines followed by the error text). -/
def capturedOutput (p : ProcBehavior) : String :=
  String.intercalate "\n" p.outLines ++ p.errText

/-- Parse one tab-separated output line into a `PixelRow`, as
`pd.read_table(..., names=["chrom1", "start1", "end1", "chrom2", "start2",
"end2", "count"])` does. -/
def parsePixelRow (line : String) : Option PixelRow :=
  match line.splitOn "\t" with
  | [c1, s1, e1, c2, s2, e2, n] =>
    match s1.toInt?, e1.toInt?, s2.toInt?, e2.toInt?, n.toInt? with
    | some s1v, some e1v, some s2v, some e2v, some nv =>
      some { chrom1 := c1, start1 := s1v, end1 := e1v,
             chrom2 := c2, start2 := s2v, end2 := e2v, count := nv }
    | _, _, _, _, _ => none
  | _ => none

/-- Model of `pd.read_table` over the piped standard output: each line
becomes one row; a malformed line makes the read raise (a fatal parse
error). -/
def readTable (lines : List String) : Except String (List PixelRow) :=
  match lines.mapM parsePixelRow with
  | some rows => Except.ok rows
  | none => Except.error "ParserError"

/-- Model of `coolerpp_dump` (fuzzy_test.py, lines 82-98).  The command is
built once and the candidate binary is invoked twice with it: first via
`sp.check_output(cmd, stderr=sp.STDOUT)`, which discards the captured
output on success and raises `CalledProcessError` carrying it on a
non-zero exit; then via `sp.Popen(..., stdout=sp.PIPE)`, whose standard
output is parsed by `pd.read_table`, after which a non-zero return code of
this second invocation raises `RuntimeError`.  `run1` and `run2` are the
behaviours of the two invocations. -/
def coolerpp_dump (run1 run2 : ProcBehavior) :
    Except String (List PixelRow) :=
  if run1.returncode ≠ 0 then Except.error (capturedOutput run1)
  else
    match readTable run2.outLines with
    | Except.error e => Except.error e
    | Except.ok df =>
      if run2.returncode ≠ 0 then
        Except.error ("terminated with code " ++ toString run2.returncode)
      else Except.ok df

/-- The argument list `[coolerpp_bin, path_to_cooler_file, query1,
query2]`; the `shlex.split(" ".join(...))` round-trip in the source is the
identity on tokens without whitespace. -/
def coolerppCmd (bin coolerPath q1 q2 : String) : List String :=
  [bin, coolerPath, q1, q2]

/-- `coolerpp_dump` together with its invocation trace: the same `cmd` is
passed first to `sp.check_output` and then to `sp.Popen`.  `exec` maps an
argument list and an invocation counter to the observed process
behaviour. -/
def coolerppDumpRun (bin coolerPath q1 q2 : String)
    (exec : List String → ℕ → ProcBehavior) :
    List (List String) × Except String (List PixelRow) :=
  let cmd := coolerppCmd bin coolerPath q1 q2
  ([cmd, cmd], coolerpp_dump (exec cmd 0) (exec cmd 1))

/-- C10: for every query comparison the candidate binary is invoked twice
with identical argument lists; on the gating success path the first
(checked) invocation's captured output is discarded — the result depends
only on its exit code — and the result actually parsed and compared is the
standard output of the second, piped invocation. -/
theorem C10_double_invocation (bin coolerPath q1 q2 : String)
    (exec : List String → ℕ → ProcBehavior)
    (run1 run1' run2 : ProcBehavior)
    (h1 : run1.returncode = 0) (h1' : run1'.returncode = 0) :
    ((coolerppDumpRun bin coolerPath q1 q2 exec).1 =
      [coolerppCmd bin coolerPath q1 q2,
       coolerppCmd bin coolerPath q1 q2]) ∧
    coolerpp_dump run1 run2 = coolerpp_dump run1' run2 ∧
    (run2.returncode = 0 →
      coolerpp_dump run1 run2 = readTable run2.outLines) := by
  refine ⟨rfl, ?_, ?_⟩
  · simp [coolerpp_dump, h1, h1']
  · intro h2
    simp only [coolerpp_dump, h1, h2, ne_eq, not_true_eq_false,
      lt_irrefl, if_false, ite_false, not_false_eq_true]
    cases readTable run2.outLines <;> simp

/-- Witness for `C10_double_invocation` at concrete process behaviours:
the two checked invocations differ in their captured output but share exit
code 0, and the piped invocation emits one well-formed row. -/
theorem C10_double_invocation_witness :
    ((coolerppDumpRun "coolerpp_dump" "test.cool" "chr1:0-10" "chr1:0-10"
        (fun _ _ => ProcBehavior.mk 0 [] "")).1 =
      [coolerppCmd "coolerpp_dump" "test.cool" "chr1:0-10" "chr1:0-10",
       coolerppCmd "coolerpp_dump" "test.cool" "chr1:0-10" "chr1:0-10"]) ∧
    coolerpp_dump (ProcBehavior.mk 0 ["discarded"] "")
      (ProcBehavior.mk 0 ["chr1\t0\t10\tchr1\t0\t10\t7"] "") =
      coolerpp_dump (ProcBehavior.mk 0 [] "other")
        (ProcBehavior.mk 0 ["chr1\t0\t10\tchr1\t0\t10\t7"] "") ∧
    ((ProcBehavior.mk 0 ["chr1\t0\t10\tchr1\t0\t10\t7"] "").returncode = 0 →
      coolerpp_dump (ProcBehavior.mk 0 ["discarded"] "")
        (ProcBehavior.mk 0 ["chr1\t0\t10\tchr1\t0\t10\t7"] "") =
        readTable ["chr1\t0\t10\tchr1\t0\t10\t7"]) :=
  C10_double_invocation "coolerpp_dump" "test.cool" "chr1:0-10" "chr1:0-10"
    (fun _ _ => ProcBehavior.mk 0 [] "")
    (ProcBehavior.mk 0 ["discarded"] "") (ProcBehavior.mk 0 [] "other")
    (ProcBehavior.mk 0 ["chr1\t0\t10\tchr1\t0\t10\t7"] "") rfl rfl

/-- Outcome of one iteration of the worker loop: the comparison succeeded,
the comparison found a mismatch (non-fatal, counted), or the iteration
raised a fatal error (such as an `ExecutionError` out of
`coolerpp_dump`). -/
inductive IterOutcome where
  | ok
  | mismatch
  | fatal (msg : String)
deriving DecidableEq, Repr

def isFatal : IterOutcome → Bool
  | IterOutcome.fatal _ => true
  | _ => false

/-- Model of the worker loop and its `except` clause (fuzzy_test.py, lines
172-232).  `outcomes` lists the iterations the loop runs before its
deadline; each iteration increments `num_queries` and, on a comparison
mismatch, `num_failures`.  The first iteration that raises makes the
worker set the shared `early_return` flag to `True` and re-raise,
abandoning its tally.  The returned Boolean is what the worker wrote to
the flag (nothing, i.e. `false`, on the clean path); the `Except` value is
the worker's result: the `(num_queries, num_failures)` tally on normal
completion, the propagated error otherwise. -/
def workerLoop : List IterOutcome → ℕ → ℕ → Bool × Except String (ℕ × ℕ)
  | [], q, f => (false, Except.ok (q, f))
  | IterOutcome.ok :: rest, q, f => workerLoop rest (q + 1) f
  | IterOutcome.mismatch :: rest, q, f => workerLoop rest (q + 1) (f + 1)
  | IterOutcome.fatal m :: _, _, _ => (true, Except.error m)

/-- Model of the top-level exit status: `sys.exit(main())` turns the
Boolean returned by `main` (`num_failures != 0`) into exit code 1 or 0,
and an exception propagating out of `main` terminates the interpreter with
exit status 1. -/
def processExit (outcome : Except String Bool) : ℕ :=
  match outcome with
  | Except.error _ => 1
  | Except.ok b => if b then 1 else 0

theorem workerLoop_fatal (pre : List IterOutcome) (m : String) :
    (∀ o ∈ pre, isFatal o = false) → ∀ q f : ℕ,
      workerLoop (pre ++ [IterOutcome.fatal m]) q f =
        (true, Except.error m) := by
  induction pre with
  | nil => intro _ q f; rfl
  | cons o rest ih =>
    intro hpre q f
    have ho := hpre o (by simp)
    have hrest : ∀ x ∈ rest, isFatal x = false := fun x hx =>
      hpre x (by simp [hx])
    cases o with
    | ok => simpa [workerLoop, List.cons_append] using ih hrest (q + 1) f
    | mismatch =>
      simpa [workerLoop, List.cons_append] using ih hrest (q + 1) (f + 1)
    | fatal s => simp [isFatal] at ho

/-- C7: when the candidate process exits with a non-zero code, the checked
invocation inside `coolerpp_dump` raises an execution error carrying the
captured output; the worker that encounters it (after any number of
non-fatal iterations) sets the shared cancellation flag to `true` and
propagates the error, discarding its partial tally; and an error escaping
`main` gives the process a non-zero exit status. -/
theorem C7_nonzero_exit_fatal (run1 run2 : ProcBehavior)
    (pre : List IterOutcome) (q f : ℕ) (m : String)
    (hrc : run1.returncode ≠ 0)
    (hpre : ∀ o ∈ pre, isFatal o = false) :
    coolerpp_dump run1 run2 = Except.error (capturedOutput run1) ∧
    workerLoop (pre ++ [IterOutcome.fatal m]) q f =
      (true, Except.error m) ∧
    processExit (Except.error m) = 1 := by
  exact ⟨by simp [coolerpp_dump, hrc], workerLoop_fatal pre m hpre q f, rfl⟩

/-- Witness for `C7_nonzero_exit_fatal`: the candidate exits with code 1
after two clean iterations. -/
theorem C7_nonzero_exit_fatal_witness :
    coolerpp_dump (ProcBehavior.mk 1 ["oops"] "boom")
      (ProcBehavior.mk 0 [] "") =
      Except.error (capturedOutput (ProcBehavior.mk 1 ["oops"] "boom")) ∧
    workerLoop ([IterOutcome.ok, IterOutcome.mismatch] ++
      [IterOutcome.fatal "RuntimeError"]) 0 0 =
      (true, Except.error "RuntimeError") ∧
    processExit (Except.error "RuntimeError") = 1 :=
  C7_nonzero_exit_fatal (ProcBehavior.mk 1 ["oops"] "boom")
    (ProcBehavior.mk 0 [] "") [IterOutcome.ok, IterOutcome.mismatch] 0 0
    "RuntimeError" (by decide) (by decide)

/-- Model of the aggregation and reporting in `main` (fuzzy_test.py, lines
255-267).  `results` holds the per-worker `(num_queries, num_failures)`
tallies collected by `pool.starmap`; `main` sums them, evaluates
`100 * num_passes / num_queries` inside the summary log call — a Python
expression that raises `ZeroDivisionError` when `num_queries` is 0 — and
returns `num_failures != 0`.  The `Except.error` branch marks the
raise. -/
def mainOutcome (results : List (ℕ × ℕ)) : Except String Bool :=
  let num_queries := (results.map Prod.fst).sum
  let num_failures := (results.map Prod.snd).sum
  if num_queries = 0 then Except.error "ZeroDivisionError"
  else Except.ok (num_failures != 0)

/-- The reported score `100 * num_passes / num_queries` with `num_passes =
num_queries - num_failures`, defined exactly where the Python expression
does not raise. -/
def mainScore (results : List (ℕ × ℕ)) : Option ℚ :=
  let num_queries := (results.map Prod.fst).sum
  let num_failures := (results.map Prod.snd).sum
  if num_queries = 0 then none
  else some (100 * ((num_queries : ℚ) - (num_failures : ℚ)) /
    (num_queries : ℚ))

/-- C1 counterexample: a run whose single worker executed no queries (a
worker returns `(0, 0)` whenever the deadline passes before its first
iteration).  The claim says the aggregator reports an undefined/skipped
pass rate without dividing by zero and `main` terminates normally; in the
code the summary expression `100 * num_passes / num_queries` divides by
zero, so `main` raises `ZeroDivisionError` and the process fails. -/
theorem C1_counterexample :
    mainOutcome [(0, 0)] = Except.error "ZeroDivisionError" ∧
    mainScore [(0, 0)] = none ∧
    processExit (mainOutcome [(0, 0)]) = 1 :=
  ⟨rfl, rfl, rfl⟩

/-- C1 (amended): whenever the total number of executed queries summed
over all returned worker tallies is 0, `main` does not skip the pass-rate
computation: evaluating `100 * num_passes / num_queries` raises
`ZeroDivisionError`, `main` terminates abnormally, and the process exit
status is non-zero. -/
theorem C1_zero_queries_division_error (results : List (ℕ × ℕ))
    (hzero : (results.map Prod.fst).sum = 0) :
    mainOutcome results = Except.error "ZeroDivisionError" ∧
    mainScore results = none ∧
    processExit (mainOutcome results) = 1 := by
  have h1 : mainOutcome results = Except.error "ZeroDivisionError" := by
    simp [mainOutcome, hzero]
  have h2 : mainScore results = none := by
    simp [mainScore, hzero]
  exact ⟨h1, h2, by rw [h1]; rfl⟩

/-- Witness for `C1_zero_queries_division_error` with two idle workers. -/
theorem C1_zero_queries_witness :
    mainOutcome [(0, 0), (0, 0)] = Except.error "ZeroDivisionError" ∧
    mainScore [(0, 0), (0, 0)] = none ∧
    processExit (mainOutcome [(0, 0), (0, 0)]) = 1 :=
  C1_zero_queries_division_error [(0, 0), (0, 0)] (by decide)

/-- The modulus of CPython's integer hash (`_PyHASH_MODULUS`, the Mersenne
prime `2^61 - 1`). -/
def pyHashModulus : ℕ := 2 ^ 61 - 1

/-- CPython's `hash` on an `int`: reduce the magnitude modulo `2^61 - 1`,
keep the sign, and map the reserved value `-1` to `-2`.  Integer hashing is
not salted by `PYTHONHASHSEED`, so this value is stable across runs and
machines. -/
def pyHashInt (n : ℤ) : ℤ :=
  let h : ℤ :=
    if n < 0 then -((-n) % (pyHashModulus : ℤ)) else n % (pyHashModulus : ℤ)
  if h = -1 then -2 else h

/-- Truncation to an unsigned 64-bit word (`Py_uhash_t` arithmetic). -/
def u64 (n : ℕ) : ℕ := n % 2 ^ 64

/-- Reinterpret a signed hash as an unsigned 64-bit word. -/
def toU64 (z : ℤ) : ℕ := (z % (2 ^ 64 : ℤ)).toNat

/-- Reinterpret an unsigned 64-bit word as a signed `Py_hash_t`. -/
def fromU64 (n : ℕ) : ℤ := if n < 2 ^ 63 then (n : ℤ) else (n : ℤ) - 2 ^ 64

def xxPrime1 : ℕ := 11400714785074694791
def xxPrime2 : ℕ := 14029467366897019727
def xxPrime5 : ℕ := 2870177450012600261

/-- Rotate a 64-bit word left by 31 bits. -/
def rotl31 (x : ℕ) : ℕ := u64 (x * 2 ^ 31) + x / 2 ^ 33

/-- One accumulation step of CPython's tuple hash (the xxHash-based
`tuplehash` of CPython ≥ 3.8): `acc += lane * P2; acc = rotl(acc, 31);
acc *= P1`, all in 64-bit arithmetic. -/
def tupleHashStep (acc lane : ℕ) : ℕ :=
  u64 (rotl31 (u64 (acc + u64 (lane * xxPrime2))) * xxPrime1)

/-- CPython's `hash((a, b))` for two integers: fold the element hashes into
the accumulator starting from `P5`, add `len ^ (P5 ^ 3527539)` with
`len = 2`, and map the reserved unsigned value `-1` to `1546275796`.  Like
the integer hash, the tuple hash is unsalted and therefore stable across
runs. -/
def pyHashTuple2 (a b : ℤ) : ℤ :=
  let acc1 := tupleHashStep xxPrime5 (toU64 (pyHashInt a))
  let acc2 := tupleHashStep acc1 (toU64 (pyHashInt b))
  let acc3 := u64 (acc2 + Nat.xor 2 (Nat.xor xxPrime5 3527539))
  let acc4 := if acc3 = 2 ^ 64 - 1 then 1546275796 else acc3
  fromU64 acc4

/-- Model of `seed_prng` (fuzzy_test.py, lines 167-170): the worker-local
seed is `hash(tuple([worker_id, seed]))`, which then seeds the worker's
`random` generator via `random.seed`. -/
def seed_prng (worker_id seed : ℤ) : ℤ := pyHashTuple2 worker_id seed

/-- Modelled from the spec: the seeded local random generator (Python's
`random` module, whose Mersenne-Twister internals are outside this
repository) is a deterministic function of its seed, so the whole query
stream a worker generates — over a fixed table, length parameters and
ratio — is a function `gen` of the derived seed and the iteration
index. -/
def workerQuerySeq (gen : ℤ → ℕ → GQuery × GQuery) (worker_id seed : ℤ)
    (n : ℕ) : GQuery × GQuery :=
  gen (seed_prng worker_id seed) n

/-- Reference value check: the model reproduces CPython's
`hash((0, 2074288341))` for the default global seed (the value is unsalted
and run-independent). -/
theorem seed_prng_reference_value :
    seed_prng 0 2074288341 = -2202246717474848736 := by decide

/-- C9: seed derivation is deterministic — equal `(worker_id, global_seed)`
pairs give equal derived seeds, and hence workers with identical
`(worker_id, global_seed)` and identical remaining configuration generate
identical query sequences across runs. -/
theorem C9_seeding_deterministic (w s w' s' : ℤ)
    (hw : w = w') (hs : s = s') :
    seed_prng w s = seed_prng w' s' ∧
    ∀ (gen : ℤ → ℕ → GQuery × GQuery) (n : ℕ),
      workerQuerySeq gen w s n = workerQuerySeq gen w' s' n := by
  subst hw
  subst hs
  exact ⟨rfl, fun _ _ => rfl⟩

/-- Witness for `C9_seeding_deterministic` at worker 0 with the default
global seed. -/
theorem C9_seeding_deterministic_witness :
    seed_prng 0 2074288341 = seed_prng 0 2074288341 ∧
    ∀ (gen : ℤ → ℕ → GQuery × GQuery) (n : ℕ),
      workerQuerySeq gen 0 2074288341 n = workerQuerySeq gen 0 2074288341 n :=
  C9_seeding_deterministic 0 2074288341 0 2074288341 rfl rfl
